import Mathlib

/-!
Shallow embedding of `modules/planning/open_space/reeds_shepp_path.cc`
(Apollo Reeds-Shepp shortest-path search).

The C++ works on IEEE doubles and calls transcendental helpers
(`std::sin`, `std::cos`, `std::tan`, `std::asin`, `std::acos`, `std::sqrt`,
`std::atan2`, `common::math::NormalizeAngle`, `common::math::Cartesian2Polar`).
Those leaves have no computable counterpart over `ℚ`, so the embedding
abstracts them into an explicit record of functions (`MathPrims`) while every
piece of control flow, data flow and field arithmetic of the source file is
embedded concretely over `ℚ`.  Theorems quantify over the record; concrete
computable stand-ins are used to evaluate the pipeline on explicit inputs.

`vector::at` is bounds-checked in C++ (throws `std::out_of_range`) and
`vector::back`/`pop_back` on an empty vector are undefined behaviour; both
abnormal outcomes are modelled as `none` of an `Option`.
-/

/-- Record of the transcendental leaves consumed by the source file
(`std::` math plus the two `common::math` helpers).  The source is
parametric in their values as far as its own control and data flow go. -/
structure MathPrims where
  sin : ℚ → ℚ
  cos : ℚ → ℚ
  tan : ℚ → ℚ
  asin : ℚ → ℚ
  acos : ℚ → ℚ
  sqrt : ℚ → ℚ
  atan2 : ℚ → ℚ → ℚ
  NormalizeAngle : ℚ → ℚ
  Cartesian2Polar : ℚ → ℚ → ℚ × ℚ
  pi : ℚ

/-- Modelled from the spec: pose objects expose `x`, `y`, `heading` read
accessors (the `Node3d` class itself is declared in a header that is not part
of this file; `GetX`/`GetY`/`GetPhi` are plain accessors). -/
structure Node3d where
  x : ℚ
  y : ℚ
  phi : ℚ
deriving DecidableEq

/-- Modelled from the spec: intermediate output (t, u, v, valid) of a
primitive solver; on a failed validity predicate all outputs are left at
their default (zero) and `flag` stays false.  The struct lives in the header
that accompanies the source file. -/
structure RSPParam where
  flag : Bool
  t : ℚ
  u : ℚ
  v : ℚ
deriving DecidableEq

/-- Default-initialized `RSPParam`, as produced by `RSPParam p;` in the
family orchestrators before a primitive solver runs. -/
def RSPParam.init : RSPParam := ⟨false, 0, 0, 0⟩

/-- Modelled from the spec: candidate path record — segment type letters and
signed lengths in unit-curvature space, total unsigned length, plus the
sampled (x, y, phi, gear) sequences filled by the discretizer.  The struct
lives in the header that accompanies the source file; vector members default
to empty and `total_length` to zero. -/
structure ReedSheppPath where
  segs_lengths : List ℚ
  segs_types : List Char
  total_length : ℚ
  x : List ℚ
  y : List ℚ
  phi : List ℚ
  gear : List Bool
deriving DecidableEq

/-- `ReedShepp::calc_tau_omega` (reeds_shepp_path.cc lines 33-50). -/
def calc_tau_omega (P : MathPrims) (u v xi eta phi : ℚ) : ℚ × ℚ :=
  let delta := P.NormalizeAngle (u - v)
  let A := P.sin u - P.sin delta
  let B := P.cos u - P.cos delta - 1
  let t1 := P.atan2 (eta * A - xi * B) (xi * A + eta * B)
  let t2 := 2 * (P.cos delta - P.cos v - P.cos u) + 3
  let tau := if t2 < 0 then P.NormalizeAngle (t1 + P.pi) else P.NormalizeAngle t1
  let omega := P.NormalizeAngle (tau - u + v - phi)
  (tau, omega)

/-- `ReedShepp::LSL` (lines 644-659). -/
def LSL (P : MathPrims) (x y phi : ℚ) : RSPParam :=
  let polar := P.Cartesian2Polar (x - P.sin phi) (y - 1 + P.cos phi)
  let u := polar.1
  let t := polar.2
  if t ≥ 0 then
    let v := P.NormalizeAngle (phi - t)
    if v ≥ 0 then ⟨true, t, u, v⟩ else RSPParam.init
  else RSPParam.init

/-- `ReedShepp::LSR` (lines 661-682). -/
def LSR (P : MathPrims) (x y phi : ℚ) : RSPParam :=
  let polar := P.Cartesian2Polar (x + P.sin phi) (y - 1 - P.cos phi)
  let u1 := polar.1 * polar.1
  let t1 := polar.2
  if u1 ≥ 4 then
    let u := P.sqrt (u1 - 4)
    let theta := P.atan2 2 u
    let t := P.NormalizeAngle (t1 + theta)
    let v := P.NormalizeAngle (t - phi)
    if t ≥ 0 ∧ v ≥ 0 then ⟨true, t, u, v⟩ else RSPParam.init
  else RSPParam.init

/-- `ReedShepp::LRL` (lines 684-703). -/
def LRL (P : MathPrims) (x y phi : ℚ) : RSPParam :=
  let polar := P.Cartesian2Polar (x - P.sin phi) (y - 1 + P.cos phi)
  let u1 := polar.1
  let t1 := polar.2
  if u1 ≤ 4 then
    let u := -2 * P.asin (1/4 * u1)
    let t := P.NormalizeAngle (t1 + 1/2 * u + P.pi)
    let v := P.NormalizeAngle (phi - t + u)
    if t ≥ 0 ∧ u ≤ 0 then ⟨true, t, u, v⟩ else RSPParam.init
  else RSPParam.init

/-- `ReedShepp::SLS` (lines 705-730). -/
def SLS (P : MathPrims) (x y phi : ℚ) : RSPParam :=
  let phi_mod := P.NormalizeAngle phi
  if y > 0 ∧ phi_mod > 0 ∧ phi_mod < P.pi * (99/100) then
    let xd := -y / P.tan phi_mod + x
    let t := xd - P.tan (phi_mod / 2)
    let u := phi_mod
    let v := P.sqrt ((x - xd) * (x - xd) + y * y) - P.tan (phi_mod / 2)
    ⟨true, t, u, v⟩
  else if y < 0 ∧ phi_mod > 0 ∧ phi_mod < P.pi * (99/100) then
    let xd := -y / P.tan phi_mod + x
    let t := xd - P.tan (phi_mod / 2)
    let u := phi_mod
    let v := -P.sqrt ((x - xd) * (x - xd) + y * y) - P.tan (phi_mod / 2)
    ⟨true, t, u, v⟩
  else RSPParam.init

/-- `ReedShepp::LRLRn` (lines 732-749).  `t` and `v` are declared and stay
`0.0`; only `u` receives a computed value before the validity test. -/
def LRLRn (P : MathPrims) (x y phi : ℚ) : RSPParam :=
  let xi := x + P.sin phi
  let eta := y - 1 - P.cos phi
  let rho := 1/4 * (2 + P.sqrt (xi * xi + eta * eta))
  if rho ≤ 1 then
    let u := P.acos rho
    let tau_omega := calc_tau_omega P u 0 xi eta phi
    if tau_omega.1 ≥ 0 ∧ tau_omega.2 ≤ 0 then ⟨true, 0, u, 0⟩ else RSPParam.init
  else RSPParam.init

/-- `ReedShepp::LRLRp` (lines 751-770).  As in `LRLRn`, `t` and `v` stay `0.0`. -/
def LRLRp (P : MathPrims) (x y phi : ℚ) : RSPParam :=
  let xi := x + P.sin phi
  let eta := y - 1 - P.cos phi
  let rho := (20 - xi * xi - eta * eta) / 16
  if rho ≤ 1 ∧ rho ≥ 0 then
    let u := -P.acos rho
    if u ≥ -(1/2) * P.pi then
      let tau_omega := calc_tau_omega P u 0 xi eta phi
      if tau_omega.1 ≥ 0 ∧ tau_omega.2 ≥ 0 then ⟨true, 0, u, 0⟩ else RSPParam.init
    else RSPParam.init
  else RSPParam.init

/-- `ReedShepp::LRSLR` (lines 819-842). -/
def LRSLR (P : MathPrims) (x y phi : ℚ) : RSPParam :=
  let xi := x + P.sin phi
  let eta := y - 1 - P.cos phi
  let polar := P.Cartesian2Polar xi eta
  let rho := polar.1
  if rho ≥ 2 then
    let u := 4 - P.sqrt (rho * rho - 4)
    if u ≤ 0 then
      let t := P.NormalizeAngle
        (P.atan2 ((4 - u) * xi - 2 * eta) (-2 * xi + (u - 4) * eta))
      let v := P.NormalizeAngle (t - phi)
      if t ≥ 0 ∧ v ≥ 0 then ⟨true, t, u, v⟩ else RSPParam.init
    else RSPParam.init
  else RSPParam.init

/-- The candidate record built inside `ReedShepp::SetRSP` (lines 844-856).
`lengths_size` is `sizeof(lengths) / sizeof(lengths[0])` where `lengths` is an
array parameter that has decayed to `double*`: on an LP64 platform this is
`sizeof(double*) / sizeof(double) = 8 / 8 = 1`, so only the first length and
the first type letter are copied and only `|lengths[0]|` is summed. -/
def setRSPRecord (lengths : List ℚ) (types : List Char) : ReedSheppPath :=
  let lengths_size : ℕ := 1
  ⟨lengths.take lengths_size, types.take lengths_size,
    ((lengths.take lengths_size).map (fun a => |a|)).sum, [], [], [], []⟩

/-- `ReedShepp::SetRSP` (lines 844-863): build the record, reject a negative
total length, otherwise append to the shared collection. -/
def SetRSP (lengths : List ℚ) (types : List Char)
    (all_possible_paths : List ReedSheppPath) : Bool × List ReedSheppPath :=
  let path := setRSPRecord lengths types
  if path.total_length < 0 then (false, all_possible_paths)
  else (true, all_possible_paths ++ [path])

/-- One variant step of a family orchestrator: the C++ pattern
`if (param.flag && !SetRSP(lengths, types, all_possible_paths)) return false;`
threaded through the running `(ok, vector)` state: once a `SetRSP` call has
failed the remaining variants are skipped (early return) and the partially
filled vector is kept. -/
def appendVariant (param : RSPParam) (lengths : List ℚ) (types : List Char)
    (st : Bool × List ReedSheppPath) : Bool × List ReedSheppPath :=
  if st.1 then
    (if param.flag then SetRSP lengths types st.2 else (true, st.2))
  else st

/-- `ReedShepp::SCS` (lines 128-147). -/
def SCS (P : MathPrims) (x y phi : ℚ)
    (st : Bool × List ReedSheppPath) : Bool × List ReedSheppPath :=
  let SLS_param := SLS P x y phi
  let st := appendVariant SLS_param
    [SLS_param.t, SLS_param.u, SLS_param.v] ['S', 'L', 'S'] st
  let SRS_param := SLS P x (-y) (-phi)
  appendVariant SRS_param
    [SRS_param.t, SRS_param.u, SRS_param.v] ['S', 'R', 'S'] st

/-- `ReedShepp::CSC` (lines 149-231). -/
def CSC (P : MathPrims) (x y phi : ℚ)
    (st : Bool × List ReedSheppPath) : Bool × List ReedSheppPath :=
  let LSL1_param := LSL P x y phi
  let st := appendVariant LSL1_param
    [LSL1_param.t, LSL1_param.u, LSL1_param.v] ['L', 'S', 'L'] st
  let LSL2_param := LSL P (-x) y (-phi)
  let st := appendVariant LSL2_param
    [-LSL2_param.t, -LSL2_param.u, -LSL2_param.v] ['L', 'S', 'L'] st
  let LSL3_param := LSL P x (-y) (-phi)
  let st := appendVariant LSL3_param
    [LSL3_param.t, LSL3_param.u, LSL3_param.v] ['R', 'S', 'R'] st
  let LSL4_param := LSL P (-x) (-y) phi
  let st := appendVariant LSL4_param
    [-LSL4_param.t, -LSL4_param.u, -LSL4_param.v] ['R', 'S', 'R'] st
  let LSR1_param := LSR P x y phi
  let st := appendVariant LSR1_param
    [LSR1_param.t, LSR1_param.u, LSR1_param.v] ['L', 'S', 'R'] st
  let LSR2_param := LSR P (-x) y (-phi)
  let st := appendVariant LSR2_param
    [-LSR2_param.t, -LSR2_param.u, -LSR2_param.v] ['L', 'S', 'R'] st
  let LSR3_param := LSR P x (-y) (-phi)
  let st := appendVariant LSR3_param
    [LSR3_param.t, LSR3_param.u, LSR3_param.v] ['R', 'S', 'L'] st
  let LSR4_param := LSR P (-x) (-y) phi
  appendVariant LSR4_param
    [-LSR4_param.t, -LSR4_param.u, -LSR4_param.v] ['R', 'S', 'L'] st

/-- `ReedShepp::CCC` (lines 233-319).  The last four variants feed the
time-reversed pose `(xb, yb, phi)` to `LRL` and append the resulting lengths
in reverse order. -/
def CCC (P : MathPrims) (x y phi : ℚ)
    (st : Bool × List ReedSheppPath) : Bool × List ReedSheppPath :=
  let LRL1_param := LRL P x y phi
  let st := appendVariant LRL1_param
    [LRL1_param.t, LRL1_param.u, LRL1_param.v] ['L', 'R', 'L'] st
  let LRL2_param := LRL P (-x) y (-phi)
  let st := appendVariant LRL2_param
    [-LRL2_param.t, -LRL2_param.u, -LRL2_param.v] ['L', 'R', 'L'] st
  let LRL3_param := LRL P x (-y) (-phi)
  let st := appendVariant LRL3_param
    [LRL3_param.t, LRL3_param.u, LRL3_param.v] ['R', 'L', 'R'] st
  let LRL4_param := LRL P (-x) (-y) phi
  let st := appendVariant LRL4_param
    [-LRL4_param.t, -LRL4_param.u, -LRL4_param.v] ['R', 'L', 'R'] st
  let xb := x * P.cos phi + y * P.sin phi
  let yb := x * P.sin phi - y * P.cos phi
  let LRL5_param := LRL P xb yb phi
  let st := appendVariant LRL5_param
    [LRL5_param.v, LRL5_param.u, LRL5_param.t] ['L', 'R', 'L'] st
  let LRL6_param := LRL P (-xb) yb (-phi)
  let st := appendVariant LRL6_param
    [-LRL6_param.v, -LRL6_param.u, -LRL6_param.t] ['L', 'R', 'L'] st
  let LRL7_param := LRL P xb (-yb) (-phi)
  let st := appendVariant LRL7_param
    [LRL7_param.v, LRL7_param.u, LRL7_param.t] ['R', 'L', 'R'] st
  let LRL8_param := LRL P (-xb) (-yb) phi
  appendVariant LRL8_param
    [-LRL8_param.v, -LRL8_param.u, -LRL8_param.t] ['R', 'L', 'R'] st

/-- `ReedShepp::CCCC` (lines 321-411). -/
def CCCC (P : MathPrims) (x y phi : ℚ)
    (st : Bool × List ReedSheppPath) : Bool × List ReedSheppPath :=
  let LRLRn1_param := LRLRn P x y phi
  let st := appendVariant LRLRn1_param
    [LRLRn1_param.t, LRLRn1_param.u, -LRLRn1_param.u, LRLRn1_param.v]
    ['L', 'R', 'L', 'R'] st
  let LRLRn2_param := LRLRn P (-x) y (-phi)
  let st := appendVariant LRLRn2_param
    [-LRLRn2_param.t, -LRLRn2_param.u, LRLRn2_param.u, -LRLRn2_param.v]
    ['L', 'R', 'L', 'R'] st
  let LRLRn3_param := LRLRn P x (-y) (-phi)
  let st := appendVariant LRLRn3_param
    [LRLRn3_param.t, LRLRn3_param.u, -LRLRn3_param.u, LRLRn3_param.v]
    ['R', 'L', 'R', 'L'] st
  let LRLRn4_param := LRLRn P (-x) (-y) phi
  let st := appendVariant LRLRn4_param
    [-LRLRn4_param.t, -LRLRn4_param.u, LRLRn4_param.u, -LRLRn4_param.v]
    ['R', 'L', 'R', 'L'] st
  let LRLRp1_param := LRLRp P x y phi
  let st := appendVariant LRLRp1_param
    [LRLRp1_param.t, LRLRp1_param.u, LRLRp1_param.u, LRLRp1_param.v]
    ['L', 'R', 'L', 'R'] st
  let LRLRp2_param := LRLRp P (-x) y (-phi)
  let st := appendVariant LRLRp2_param
    [-LRLRp2_param.t, -LRLRp2_param.u, -LRLRp2_param.u, -LRLRp2_param.v]
    ['L', 'R', 'L', 'R'] st
  let LRLRp3_param := LRLRp P x (-y) (-phi)
  let st := appendVariant LRLRp3_param
    [LRLRp3_param.t, LRLRp3_param.u, LRLRp3_param.u, LRLRp3_param.v]
    ['R', 'L', 'R', 'L'] st
  let LRLRp4_param := LRLRp P (-x) (-y) phi
  appendVariant LRLRp4_param
    [-LRLRp4_param.t, -LRLRp4_param.u, -LRLRp4_param.u, -LRLRp4_param.v]
    ['R', 'L', 'R', 'L'] st

/-- `ReedShepp::CCSC` (lines 413-595).  Note the source feeds `LRLRn`/`LRLRp`
(not `LRSL`/`LRSR`) to these variants. -/
def CCSC (P : MathPrims) (x y phi : ℚ)
    (st : Bool × List ReedSheppPath) : Bool × List ReedSheppPath :=
  let LRSL1_param := LRLRn P x y phi
  let st := appendVariant LRSL1_param
    [LRSL1_param.t, -(1/2) * P.pi, -LRSL1_param.u, LRSL1_param.v]
    ['L', 'R', 'S', 'L'] st
  let LRSL2_param := LRLRn P (-x) y (-phi)
  let st := appendVariant LRSL2_param
    [-LRSL2_param.t, 1/2 * P.pi, -LRSL2_param.u, -LRSL2_param.v]
    ['L', 'R', 'S', 'L'] st
  let LRSL3_param := LRLRn P x (-y) (-phi)
  let st := appendVariant LRSL3_param
    [LRSL3_param.t, -(1/2) * P.pi, LRSL3_param.u, LRSL3_param.v]
    ['R', 'L', 'S', 'R'] st
  let LRSL4_param := LRLRn P (-x) (-y) phi
  let st := appendVariant LRSL4_param
    [-LRSL4_param.t, -(1/2) * P.pi, -LRSL4_param.u, -LRSL4_param.v]
    ['R', 'L', 'S', 'R'] st
  let LRSR1_param := LRLRp P x y phi
  let st := appendVariant LRSR1_param
    [LRSR1_param.t, -(1/2) * P.pi, LRSR1_param.u, LRSR1_param.v]
    ['L', 'R', 'S', 'R'] st
  let LRSR2_param := LRLRp P (-x) y (-phi)
  let st := appendVariant LRSR2_param
    [-LRSR2_param.t, 1/2 * P.pi, -LRSR2_param.u, -LRSR2_param.v]
    ['L', 'R', 'S', 'R'] st
  let LRSR3_param := LRLRp P x (-y) (-phi)
  let st := appendVariant LRSR3_param
    [LRSR3_param.t, -(1/2) * P.pi, LRSR3_param.u, LRSR3_param.v]
    ['R', 'L', 'S', 'L'] st
  let LRSR4_param := LRLRp P (-x) (-y) phi
  let st := appendVariant LRSR4_param
    [-LRSR4_param.t, 1/2 * P.pi, -LRSR4_param.u, -LRSR4_param.v]
    ['R', 'L', 'S', 'L'] st
  let xb := x * P.cos phi + y * P.sin phi
  let yb := x * P.sin phi - y * P.cos phi
  let LRSL5_param := LRLRn P xb yb phi
  let st := appendVariant LRSL5_param
    [LRSL5_param.v, LRSL5_param.u, -(1/2) * P.pi, LRSL5_param.t]
    ['L', 'S', 'R', 'L'] st
  let LRSL6_param := LRLRn P (-xb) yb (-phi)
  let st := appendVariant LRSL6_param
    [-LRSL6_param.v, -LRSL6_param.u, 1/2 * P.pi, -LRSL6_param.t]
    ['L', 'S', 'R', 'L'] st
  let LRSL7_param := LRLRn P xb (-yb) (-phi)
  let st := appendVariant LRSL7_param
    [LRSL7_param.v, LRSL7_param.u, -(1/2) * P.pi, LRSL7_param.t]
    ['R', 'S', 'L', 'R'] st
  let LRSL8_param := LRLRn P (-xb) (-yb) phi
  let st := appendVariant LRSL8_param
    [-LRSL8_param.v, -LRSL8_param.u, 1/2 * P.pi, -LRSL8_param.t]
    ['R', 'S', 'L', 'R'] st
  let LRSR5_param := LRLRp P xb yb phi
  let st := appendVariant LRSR5_param
    [LRSR5_param.v, LRSR5_param.u, -(1/2) * P.pi, LRSR5_param.t]
    ['R', 'S', 'R', 'L'] st
  let LRSR6_param := LRLRp P (-xb) yb (-phi)
  let st := appendVariant LRSR6_param
    [-LRSR6_param.v, -LRSR6_param.u, 1/2 * P.pi, -LRSR6_param.t]
    ['R', 'S', 'R', 'L'] st
  let LRSR7_param := LRLRp P xb (-yb) (-phi)
  let st := appendVariant LRSR7_param
    [LRSR7_param.v, LRSR7_param.u, -(1/2) * P.pi, LRSR7_param.t]
    ['L', 'S', 'L', 'R'] st
  let LRSR8_param := LRLRp P (-xb) (-yb) phi
  appendVariant LRSR8_param
    [-LRSR8_param.v, -LRSR8_param.u, 1/2 * P.pi, -LRSR8_param.t]
    ['L', 'S', 'L', 'R'] st

/-- `ReedShepp::CCSCC` (lines 596-642). -/
def CCSCC (P : MathPrims) (x y phi : ℚ)
    (st : Bool × List ReedSheppPath) : Bool × List ReedSheppPath :=
  let LRSLR1_param := LRSLR P x y phi
  let st := appendVariant LRSLR1_param
    [LRSLR1_param.t, -(1/2) * P.pi, LRSLR1_param.u, -(1/2) * P.pi, LRSLR1_param.v]
    ['L', 'R', 'S', 'L', 'R'] st
  let LRSLR2_param := LRSLR P (-x) y (-phi)
  let st := appendVariant LRSLR2_param
    [-LRSLR2_param.t, 1/2 * P.pi, -LRSLR2_param.u, 1/2 * P.pi, -LRSLR2_param.v]
    ['L', 'R', 'S', 'L', 'R'] st
  let LRSLR3_param := LRSLR P x (-y) (-phi)
  let st := appendVariant LRSLR3_param
    [LRSLR3_param.t, -(1/2) * P.pi, LRSLR3_param.u, -(1/2) * P.pi, LRSLR3_param.v]
    ['R', 'L', 'S', 'R', 'L'] st
  let LRSLR4_param := LRSLR P (-x) (-y) phi
  appendVariant LRSLR4_param
    [-LRSLR4_param.t, 1/2 * P.pi, -LRSLR4_param.u, 1/2 * P.pi, -LRSLR4_param.v]
    ['R', 'L', 'S', 'R', 'L'] st

/-- The six family calls of `ReedShepp::GenerateRSP` (lines 98-121) on the
normalized pose, in source order, starting from an empty collection.  The
early `return false` on a family failure is the first-component pass-through
of `appendVariant`, which leaves later families inert once a failure
occurred, exactly as the source's early returns do. -/
def runAllFamilies (P : MathPrims) (x y phi : ℚ) : Bool × List ReedSheppPath :=
  CCSCC P x y phi (CCSC P x y phi (CCCC P x y phi
    (CCC P x y phi (CSC P x y phi (SCS P x y phi (true, []))))))

/-- `ReedShepp::GenerateRSP` (lines 87-126): normalize the relative pose by
the start heading and the curvature bound, run the six families, and fail if
a family failed or if no candidate at all was produced. -/
def GenerateRSP (P : MathPrims) (max_kappa : ℚ)
    (start_node end_node : Node3d) : Bool × List ReedSheppPath :=
  let dx := end_node.x - start_node.x
  let dy := end_node.y - start_node.y
  let dphi := end_node.phi - start_node.phi
  let c := P.cos start_node.phi
  let s := P.sin start_node.phi
  let x := (c * dx + s * dy) * max_kappa
  let y := (-s * dx + c * dy) * max_kappa
  let st := runAllFamilies P x y dphi
  if st.1 then
    (if st.2.length = 0 then (false, st.2) else (true, st.2))
  else (false, st.2)

/-- The four pre-allocated sample buffers of
`ReedShepp::GenerateLocalConfigurations` (lines 872-875). -/
structure Vecs where
  px : List ℚ
  py : List ℚ
  pphi : List ℚ
  pgear : List Bool
deriving DecidableEq

/-- `vector<double>::at` on an index held in a `double` (the source keeps the
cursor in `double index`): negative or out-of-range indices throw, modelled
as `none`. -/
def getAt (l : List ℚ) (i : ℤ) : Option ℚ :=
  if 0 ≤ i then l.get? i.toNat else none

/-- `ReedShepp::Interpolation` (lines 943-980).  All sample writes go through
`vector::at`, so an out-of-range cursor aborts (`none`).  For a segment type
other than `S`, `L`, `R` the local chord y-offset keeps its `0.0`
initialization, as in the source. -/
def Interpolation (P : MathPrims) (max_kappa : ℚ) (index : ℤ) (pd : ℚ)
    (m : Char) (ox oy ophi : ℚ) (v : Vecs) : Option Vecs :=
  if 0 ≤ index ∧ index.toNat < v.px.length ∧ index.toNat < v.py.length ∧
      index.toNat < v.pphi.length ∧ index.toNat < v.pgear.length then
    let i := index.toNat
    let v1 : Vecs :=
      if m = 'S' then
        ⟨v.px.set i (ox + pd / max_kappa * P.cos ophi),
         v.py.set i (oy + pd / max_kappa * P.sin ophi),
         v.pphi.set i ophi, v.pgear⟩
      else
        let ldx := P.sin pd / max_kappa
        let ldy := if m = 'L' then (1 - P.cos pd) / max_kappa
          else if m = 'R' then (1 - P.cos pd) / (-max_kappa) else 0
        let gdx := P.cos (-ophi) * ldx + P.sin (-ophi) * ldy
        let gdy := -P.sin (-ophi) * ldx + P.cos (-ophi) * ldy
        ⟨v.px.set i (ox + gdx), v.py.set i (oy + gdy), v.pphi, v.pgear⟩
    let v2 : Vecs := ⟨v1.px, v1.py, v1.pphi, v1.pgear.set i (decide (pd > 0))⟩
    let v3 : Vecs :=
      if m = 'L' then ⟨v2.px, v2.py, v2.pphi.set i (ophi + pd), v2.pgear⟩
      else if m = 'R' then ⟨v2.px, v2.py, v2.pphi.set i (ophi - pd), v2.pgear⟩
      else v2
    some v3
  else none

/-- The `while (std::abs(pd) <= std::abs(l))` sampling loop of lines 907-911.
The fuel argument only bounds the recursion: it is started at
`point_num + 2`, and since every iteration writes at a cursor increased by
one, the in-bounds check inside `Interpolation` fails (returning `none`)
before that many iterations can complete, so the fuel can never be the
deciding exit. -/
def interpLoop (P : MathPrims) (max_kappa : ℚ) (m : Char) (ox oy ophi d l : ℚ) :
    ℕ → ℤ → ℚ → Vecs → Option (ℤ × ℚ × Vecs)
  | 0, _, _, _ => none
  | fuel + 1, index, pd, v =>
    if |pd| ≤ |l| then
      match Interpolation P max_kappa (index + 1) pd m ox oy ophi v with
      | none => none
      | some v2 => interpLoop P max_kappa m ox oy ophi d l fuel (index + 1) (pd + d) v2
    else some (index, pd, v)

/-- The per-segment walk of `ReedShepp::GenerateLocalConfigurations`
(lines 890-915), threading the cursor `index` and the carry `ll` across
segments.  `pd` is recomputed at the top of every segment from `d` and `ll`,
so it does not need to be threaded. -/
def segLoop (P : MathPrims) (max_kappa step_size : ℚ) (point_num : ℕ)
    (lengths : List ℚ) :
    List Char → ℕ → ℤ → ℚ → Vecs → Option Vecs
  | [], _, _, _, v => some v
  | m :: rest, i, index, ll, v => do
    let l ← lengths.get? i
    let d := if l > 0 then step_size else -step_size
    let ox ← getAt v.px index
    let oy ← getAt v.py index
    let ophi ← getAt v.pphi index
    let index1 := index - 1
    let pd := if 1 ≤ i ∧ lengths.getD (i - 1) 0 * l > 0 then -d - ll else d - ll
    match interpLoop P max_kappa m ox oy ophi d l (point_num + 2) index1 pd v with
    | none => none
    | some (index2, pd2, v2) =>
      let ll2 := l - pd2 - d
      let index3 := index2 + 1
      match Interpolation P max_kappa index3 l m ox oy ophi v2 with
      | none => none
      | some v3 => segLoop P max_kappa step_size point_num lengths rest (i + 1) index3 ll2 v3

/-- Helper for the trailing-zero trim, acting on the four buffers reversed:
`while (px.back() == 0.0) { pop_back x4 }` — reading `back()` of an empty
vector, or popping an empty companion vector, is undefined behaviour,
modelled as `none`. -/
def trimRev : List ℚ → List ℚ → List ℚ → List Bool →
    Option (List ℚ × List ℚ × List ℚ × List Bool)
  | [], _, _, _ => none
  | a :: pxr, pyr, pphir, pgearr =>
    if a = 0 then
      match pyr, pphir, pgearr with
      | _ :: pyr2, _ :: pphir2, _ :: pgearr2 => trimRev pxr pyr2 pphir2 pgearr2
      | _, _, _ => none
    else some (a :: pxr, pyr, pphir, pgearr)

/-- The trailing-zero trim of lines 917-922. -/
def trimTrailing (px py pphi : List ℚ) (pgear : List Bool) :
    Option (List ℚ × List ℚ × List ℚ × List Bool) :=
  (trimRev px.reverse py.reverse pphi.reverse pgear.reverse).map
    (fun r => (r.1.reverse, r.2.1.reverse, r.2.2.1.reverse, r.2.2.2.reverse))

/-- The loop body of `ReedShepp::GenerateLocalConfigurations` (lines 869-938)
for one candidate path: allocate `point_num` samples, walk the segments,
trim trailing zero samples, rotate/translate into the global frame, and
rescale lengths by the curvature bound.  `point_num` is the
`double`-to-`size_t` truncation of `total_length / step_size + nsegs + 3`. -/
def discretizePath (P : MathPrims) (max_kappa step_size : ℚ)
    (start_node : Node3d) (path : ReedSheppPath) : Option ReedSheppPath := do
  let point_num : ℕ :=
    (⌊path.total_length / step_size + (path.segs_lengths.length : ℚ) + 3⌋).toNat
  let v0 : Vecs := ⟨List.replicate point_num 0, List.replicate point_num 0,
    List.replicate point_num 0, List.replicate point_num true⟩
  let l0 ← path.segs_lengths.get? 0
  let v1 ← if 0 < point_num then
      some (⟨v0.px, v0.py, v0.pphi, v0.pgear.set 0 (decide (l0 > 0))⟩ : Vecs)
    else none
  -- initial `d = ±step; pd = d;` — `pd` is dead (recomputed in the first
  -- segment as `d - ll` with `ll = 0`), and `d` is recomputed from `l` there
  let v2 ← segLoop P max_kappa step_size point_num path.segs_lengths
    path.segs_types 0 1 0 v1
  let tr ← trimTrailing v2.px v2.py v2.pphi v2.pgear
  let px := tr.1
  let py := tr.2.1
  let pphi := tr.2.2.1
  let pgear := tr.2.2.2
  let xs ← (List.range px.length).mapM (fun i => do
    let a ← px.get? i
    let b ← py.get? i
    pure (P.cos (-start_node.phi) * a + P.sin (-start_node.phi) * b + start_node.x))
  let ys ← (List.range px.length).mapM (fun i => do
    let a ← px.get? i
    let b ← py.get? i
    pure (-P.sin (-start_node.phi) * a + P.cos (-start_node.phi) * b + start_node.y))
  let phis ← (List.range px.length).mapM (fun i => do
    let c ← pphi.get? i
    pure (P.NormalizeAngle (c + start_node.phi)))
  pure ⟨path.segs_lengths.map (fun a => a / max_kappa), path.segs_types,
    path.total_length / max_kappa,
    path.x ++ xs, path.y ++ ys, path.phi ++ phis, pgear⟩

/-- `ReedShepp::GenerateLocalConfigurations` (lines 865-941).  The range-for
`for (auto path : *all_possible_paths)` binds each element BY VALUE, so every
discretized copy is discarded at the end of its iteration and the vector is
returned unchanged; the function then reports `true` (`some paths` here).  A
`vector::at` / `back()` failure inside an iteration aborts the whole call
(`none`). -/
def GenerateLocalConfigurations (P : MathPrims) (max_kappa step_size : ℚ)
    (start_node _end_node : Node3d)
    (all_possible_paths : List ReedSheppPath) : Option (List ReedSheppPath) :=
  match all_possible_paths.mapM (discretizePath P max_kappa step_size start_node) with
  | some _ => some all_possible_paths
  | none => none

/-- `ReedShepp::GenerateRSPs` (lines 73-85).  Outer `none` = abnormal
termination inside the discretizer; `some none` = returned `false`;
`some (some l)` = returned `true` with the vector contents `l`. -/
def GenerateRSPs (P : MathPrims) (max_kappa step_size : ℚ)
    (start_node end_node : Node3d) : Option (Option (List ReedSheppPath)) :=
  let r := GenerateRSP P max_kappa start_node end_node
  if r.1 then
    match GenerateLocalConfigurations P max_kappa step_size start_node end_node r.2 with
    | none => none
    | some l => some (some l)
  else some none

/-- The linear scan of `ReedShepp::ShortestRSP` (lines 61-68): running state
is (next index, best index so far, best length so far), with `none` standing
for the initial `+infinity` and `-1` for the initial index. -/
def minScanAux : List ReedSheppPath → ℕ → ℤ → Option ℚ → ℤ × Option ℚ
  | [], _, bi, bl => (bi, bl)
  | p :: rest, i, bi, bl =>
    if (match bl with | none => true | some b => decide (p.total_length < b)) then
      minScanAux rest (i + 1) (i : ℤ) (some p.total_length)
    else minScanAux rest (i + 1) bi bl

/-- `ReedShepp::ShortestRSP` (lines 52-71).  `none` = abnormal termination
(either inside the discretizer, or `vector::at(-1)` when every candidate
failed the strict comparison — impossible with the `+infinity` start);
`some none` = returned `false`; `some (some p)` = returned `true` with the
optimal path copied out. -/
def ShortestRSP (P : MathPrims) (max_kappa step_size : ℚ)
    (start_node end_node : Node3d) : Option (Option ReedSheppPath) :=
  match GenerateRSPs P max_kappa step_size start_node end_node with
  | none => none
  | some none => some none
  | some (some all_possible_paths) =>
    let r := minScanAux all_possible_paths 0 (-1) none
    if r.1 < 0 then none
    else
      match all_possible_paths.get? r.1.toNat with
      | none => none
      | some p => some (some p)

/-- The optional singleton a family variant contributes to the collection:
present exactly when the primitive's validity flag was set. -/
def vblock (param : RSPParam) (lengths : List ℚ) (types : List Char) :
    List ReedSheppPath :=
  if param.flag then [setRSPRecord lengths types] else []

/-- The total length contributed by one family variant (empty if the variant
did not validate). -/
def tblock (param : RSPParam) (lengths : List ℚ) : List ℚ :=
  if param.flag then [((lengths.take 1).map (fun a => |a|)).sum] else []

/-- Computable stand-in for the transcendental record, used to run the
pipeline on concrete inputs.  Its `cos` is an even function and its `sin` an
odd one (both constant). -/
def probePrims : MathPrims :=
  ⟨fun _ => 0, fun _ => 1, fun _ => 3, fun _ => -5, fun _ => 1,
   fun _ => 100, fun _ _ => -7, fun a => a, fun _ _ => (0, -1), 100⟩

/-- Second computable stand-in, tuned so that the validity tests of the
four-turn primitives succeed. -/
def c10Prims : MathPrims :=
  ⟨fun _ => 0, fun _ => 1, fun _ => 0, fun _ => 0, fun _ => 0,
   fun _ => 0, fun _ _ => 0, fun a => a, fun _ _ => (0, 0), 0⟩

theorem setRSPRecord_total_nonneg (lengths : List ℚ) (types : List Char) :
    0 ≤ (setRSPRecord lengths types).total_length := by
  apply List.sum_nonneg
  intro a ha
  simp only [List.mem_map] at ha
  obtain ⟨b, _, rfl⟩ := ha
  exact abs_nonneg b

theorem setRSP_eq (lengths : List ℚ) (types : List Char) (ps : List ReedSheppPath) :
    SetRSP lengths types ps = (true, ps ++ [setRSPRecord lengths types]) := by
  unfold SetRSP
  rw [if_neg (not_lt.mpr (setRSPRecord_total_nonneg lengths types))]

theorem appendVariant_true (param : RSPParam) (lengths : List ℚ) (types : List Char)
    (ps : List ReedSheppPath) :
    appendVariant param lengths types (true, ps) =
      (true, ps ++ vblock param lengths types) := by
  cases hf : param.flag <;>
    simp [appendVariant, vblock, hf, setRSP_eq]

theorem appendVariant_false (param : RSPParam) (lengths : List ℚ) (types : List Char)
    (ps : List ReedSheppPath) :
    appendVariant param lengths types (false, ps) = (false, ps) := by
  simp [appendVariant]

theorem map_total_vblock (param : RSPParam) (lengths : List ℚ) (types : List Char) :
    (vblock param lengths types).map ReedSheppPath.total_length = tblock param lengths := by
  cases hf : param.flag <;> simp [vblock, tblock, hf, setRSPRecord]

theorem pair_true {p : Bool × List ReedSheppPath} (h : p.1 = true) :
    p = (true, p.2) := by
  obtain ⟨b, l⟩ := p
  simp only at h
  rw [h]

theorem SCS_fst (P : MathPrims) (x y phi : ℚ) (ps : List ReedSheppPath) :
    (SCS P x y phi (true, ps)).1 = true := by
  simp only [SCS, appendVariant_true]

theorem CSC_fst (P : MathPrims) (x y phi : ℚ) (ps : List ReedSheppPath) :
    (CSC P x y phi (true, ps)).1 = true := by
  simp only [CSC, appendVariant_true]

theorem CCC_fst (P : MathPrims) (x y phi : ℚ) (ps : List ReedSheppPath) :
    (CCC P x y phi (true, ps)).1 = true := by
  simp only [CCC, appendVariant_true]

theorem CCCC_fst (P : MathPrims) (x y phi : ℚ) (ps : List ReedSheppPath) :
    (CCCC P x y phi (true, ps)).1 = true := by
  simp only [CCCC, appendVariant_true]

theorem CCSC_fst (P : MathPrims) (x y phi : ℚ) (ps : List ReedSheppPath) :
    (CCSC P x y phi (true, ps)).1 = true := by
  simp only [CCSC, appendVariant_true]

theorem CCSCC_fst (P : MathPrims) (x y phi : ℚ) (ps : List ReedSheppPath) :
    (CCSCC P x y phi (true, ps)).1 = true := by
  simp only [CCSCC, appendVariant_true]

theorem runAllFamilies_fst (P : MathPrims) (x y phi : ℚ) :
    (runAllFamilies P x y phi).1 = true := by
  unfold runAllFamilies
  rw [pair_true (SCS_fst P x y phi [])]
  rw [pair_true (CSC_fst P x y phi _)]
  rw [pair_true (CCC_fst P x y phi _)]
  rw [pair_true (CCCC_fst P x y phi _)]
  rw [pair_true (CCSC_fst P x y phi _)]
  exact CCSCC_fst P x y phi _

theorem tblock_cons (p : RSPParam) (a : ℚ) (l : List ℚ) :
    tblock p (a :: l) = if p.flag then [|a|] else [] := by
  simp [tblock]

theorem SCS_mirror (P : MathPrims) (x y phi : ℚ) (ps ps' : List ReedSheppPath)
    (h : (ps'.map ReedSheppPath.total_length).Perm (ps.map ReedSheppPath.total_length)) :
    (((SCS P x (-y) (-phi) (true, ps')).2).map ReedSheppPath.total_length).Perm
      (((SCS P x y phi (true, ps)).2).map ReedSheppPath.total_length) := by
  simp only [SCS, appendVariant_true, List.append_assoc, neg_neg,
    List.map_append, map_total_vblock, tblock_cons]
  rw [← Multiset.coe_eq_coe] at h ⊢
  simp only [← Multiset.coe_add] at h ⊢
  rw [h]
  abel

theorem CSC_mirror (P : MathPrims) (x y phi : ℚ) (ps ps' : List ReedSheppPath)
    (h : (ps'.map ReedSheppPath.total_length).Perm (ps.map ReedSheppPath.total_length)) :
    (((CSC P x (-y) (-phi) (true, ps')).2).map ReedSheppPath.total_length).Perm
      (((CSC P x y phi (true, ps)).2).map ReedSheppPath.total_length) := by
  simp only [CSC, appendVariant_true, List.append_assoc, neg_neg,
    List.map_append, map_total_vblock, tblock_cons]
  rw [← Multiset.coe_eq_coe] at h ⊢
  simp only [← Multiset.coe_add] at h ⊢
  rw [h]
  abel

theorem CCC_mirror (P : MathPrims)
    (hcos : ∀ a, P.cos (-a) = P.cos a) (hsin : ∀ a, P.sin (-a) = -P.sin a)
    (x y phi : ℚ) (ps ps' : List ReedSheppPath)
    (h : (ps'.map ReedSheppPath.total_length).Perm (ps.map ReedSheppPath.total_length)) :
    (((CCC P x (-y) (-phi) (true, ps')).2).map ReedSheppPath.total_length).Perm
      (((CCC P x y phi (true, ps)).2).map ReedSheppPath.total_length) := by
  have hxb : x * P.cos (-phi) + -y * P.sin (-phi) = x * P.cos phi + y * P.sin phi := by
    rw [hcos, hsin]; ring
  have hyb : x * P.sin (-phi) - -y * P.cos (-phi) = -(x * P.sin phi - y * P.cos phi) := by
    rw [hcos, hsin]; ring
  simp only [CCC, appendVariant_true, List.append_assoc, neg_neg, hxb, hyb,
    List.map_append, map_total_vblock, tblock_cons]
  rw [← Multiset.coe_eq_coe] at h ⊢
  simp only [← Multiset.coe_add] at h ⊢
  rw [h]
  abel

theorem CCCC_mirror (P : MathPrims) (x y phi : ℚ) (ps ps' : List ReedSheppPath)
    (h : (ps'.map ReedSheppPath.total_length).Perm (ps.map ReedSheppPath.total_length)) :
    (((CCCC P x (-y) (-phi) (true, ps')).2).map ReedSheppPath.total_length).Perm
      (((CCCC P x y phi (true, ps)).2).map ReedSheppPath.total_length) := by
  simp only [CCCC, appendVariant_true, List.append_assoc, neg_neg,
    List.map_append, map_total_vblock, tblock_cons]
  rw [← Multiset.coe_eq_coe] at h ⊢
  simp only [← Multiset.coe_add] at h ⊢
  rw [h]
  abel

theorem CCSC_mirror (P : MathPrims)
    (hcos : ∀ a, P.cos (-a) = P.cos a) (hsin : ∀ a, P.sin (-a) = -P.sin a)
    (x y phi : ℚ) (ps ps' : List ReedSheppPath)
    (h : (ps'.map ReedSheppPath.total_length).Perm (ps.map ReedSheppPath.total_length)) :
    (((CCSC P x (-y) (-phi) (true, ps')).2).map ReedSheppPath.total_length).Perm
      (((CCSC P x y phi (true, ps)).2).map ReedSheppPath.total_length) := by
  have hxb : x * P.cos (-phi) + -y * P.sin (-phi) = x * P.cos phi + y * P.sin phi := by
    rw [hcos, hsin]; ring
  have hyb : x * P.sin (-phi) - -y * P.cos (-phi) = -(x * P.sin phi - y * P.cos phi) := by
    rw [hcos, hsin]; ring
  simp only [CCSC, appendVariant_true, List.append_assoc, neg_neg, hxb, hyb,
    List.map_append, map_total_vblock, tblock_cons]
  rw [← Multiset.coe_eq_coe] at h ⊢
  simp only [← Multiset.coe_add] at h ⊢
  rw [h]
  abel

theorem CCSCC_mirror (P : MathPrims) (x y phi : ℚ) (ps ps' : List ReedSheppPath)
    (h : (ps'.map ReedSheppPath.total_length).Perm (ps.map ReedSheppPath.total_length)) :
    (((CCSCC P x (-y) (-phi) (true, ps')).2).map ReedSheppPath.total_length).Perm
      (((CCSCC P x y phi (true, ps)).2).map ReedSheppPath.total_length) := by
  simp only [CCSCC, appendVariant_true, List.append_assoc, neg_neg,
    List.map_append, map_total_vblock, tblock_cons]
  rw [← Multiset.coe_eq_coe] at h ⊢
  simp only [← Multiset.coe_add] at h ⊢
  rw [h]
  abel

theorem runAllFamilies_mirror (P : MathPrims)
    (hcos : ∀ a, P.cos (-a) = P.cos a) (hsin : ∀ a, P.sin (-a) = -P.sin a)
    (x y phi : ℚ) :
    (((runAllFamilies P x (-y) (-phi)).2).map ReedSheppPath.total_length).Perm
      (((runAllFamilies P x y phi).2).map ReedSheppPath.total_length) := by
  unfold runAllFamilies
  rw [pair_true (SCS_fst P x (-y) (-phi) []), pair_true (SCS_fst P x y phi [])]
  rw [pair_true (CSC_fst P x (-y) (-phi) _), pair_true (CSC_fst P x y phi _)]
  rw [pair_true (CCC_fst P x (-y) (-phi) _), pair_true (CCC_fst P x y phi _)]
  rw [pair_true (CCCC_fst P x (-y) (-phi) _), pair_true (CCCC_fst P x y phi _)]
  rw [pair_true (CCSC_fst P x (-y) (-phi) _), pair_true (CCSC_fst P x y phi _)]
  exact CCSCC_mirror P x y phi _ _
    (CCSC_mirror P hcos hsin x y phi _ _
      (CCCC_mirror P x y phi _ _
        (CCC_mirror P hcos hsin x y phi _ _
          (CSC_mirror P x y phi _ _
            (SCS_mirror P x y phi [] [] (List.Perm.refl _))))))

theorem minScanAux_go (l : List ReedSheppPath) :
    ∀ (i : ℕ) (bi : ℤ) (b : ℚ),
      (minScanAux l i bi (some b) = (bi, some b) ∧
        ∀ j q, l.get? j = some q → b ≤ q.total_length) ∨
      (∃ k q, l.get? k = some q ∧
        minScanAux l i bi (some b) = ((i : ℤ) + (k : ℤ), some q.total_length) ∧
        q.total_length < b ∧
        (∀ j r, l.get? j = some r → q.total_length ≤ r.total_length) ∧
        (∀ j r, j < k → l.get? j = some r → q.total_length < r.total_length)) := by
  induction l with
  | nil =>
    intro i bi b
    left
    refine ⟨rfl, ?_⟩
    intro j q hq
    simp at hq
  | cons p rest ih =>
    intro i bi b
    by_cases hpb : p.total_length < b
    · have hstep : minScanAux (p :: rest) i bi (some b)
          = minScanAux rest (i + 1) (i : ℤ) (some p.total_length) := by
        simp [minScanAux, hpb]
      rcases ih (i + 1) (i : ℤ) p.total_length with ⟨heq, hall⟩ |
        ⟨k', q', hget, heq, hlt, hmin, hfirst⟩
      · right
        refine ⟨0, p, rfl, ?_, hpb, ?_, ?_⟩
        · rw [hstep, heq]; simp
        · intro j r hj
          cases j with
          | zero =>
            simp at hj
            rw [← hj]
          | succ j => exact hall j r (by simpa using hj)
        · intro j r hjk _
          omega
      · right
        refine ⟨k' + 1, q', by simpa using hget, ?_, lt_trans hlt hpb, ?_, ?_⟩
        · rw [hstep, heq]
          congr 1
          push_cast
          ring
        · intro j r hj
          cases j with
          | zero =>
            simp at hj
            rw [← hj]
            exact le_of_lt hlt
          | succ j => exact hmin j r (by simpa using hj)
        · intro j r hjk hj
          cases j with
          | zero =>
            simp at hj
            rw [← hj]
            exact hlt
          | succ j => exact hfirst j r (by omega) (by simpa using hj)
    · have hstep : minScanAux (p :: rest) i bi (some b)
          = minScanAux rest (i + 1) bi (some b) := by
        simp [minScanAux, hpb]
      rcases ih (i + 1) bi b with ⟨heq, hall⟩ |
        ⟨k', q', hget, heq, hlt, hmin, hfirst⟩
      · left
        refine ⟨by rw [hstep, heq], ?_⟩
        intro j q hj
        cases j with
        | zero =>
          simp at hj
          rw [← hj]
          exact not_lt.mp hpb
        | succ j => exact hall j q (by simpa using hj)
      · right
        refine ⟨k' + 1, q', by simpa using hget, ?_, hlt, ?_, ?_⟩
        · rw [hstep, heq]
          congr 1
          push_cast
          ring
        · intro j r hj
          cases j with
          | zero =>
            simp at hj
            rw [← hj]
            exact le_of_lt (lt_of_lt_of_le hlt (not_lt.mp hpb))
          | succ j => exact hmin j r (by simpa using hj)
        · intro j r hjk hj
          cases j with
          | zero =>
            simp at hj
            rw [← hj]
            exact lt_of_lt_of_le hlt (not_lt.mp hpb)
          | succ j => exact hfirst j r (by omega) (by simpa using hj)

theorem minScanAux_spec (p : ReedSheppPath) (rest : List ReedSheppPath) :
    ∃ k q, (p :: rest).get? k = some q ∧
      minScanAux (p :: rest) 0 (-1) none = ((k : ℤ), some q.total_length) ∧
      (∀ j r, (p :: rest).get? j = some r → q.total_length ≤ r.total_length) ∧
      (∀ j r, j < k → (p :: rest).get? j = some r → q.total_length < r.total_length) := by
  have hstep : minScanAux (p :: rest) 0 (-1) none
      = minScanAux rest 1 0 (some p.total_length) := by
    simp [minScanAux]
  rcases minScanAux_go rest 1 0 p.total_length with ⟨heq, hall⟩ |
    ⟨k', q', hget, heq, hlt, hmin, hfirst⟩
  · refine ⟨0, p, rfl, ?_, ?_, ?_⟩
    · rw [hstep, heq]; norm_num
    · intro j r hj
      cases j with
      | zero =>
        simp at hj
        rw [← hj]
      | succ j => exact hall j r (by simpa using hj)
    · intro j r hjk _
      omega
  · refine ⟨k' + 1, q', by simpa using hget, ?_, ?_, ?_⟩
    · rw [hstep, heq]
      congr 1
      push_cast
      ring
    · intro j r hj
      cases j with
      | zero =>
        simp at hj
        rw [← hj]
        exact le_of_lt hlt
      | succ j => exact hmin j r (by simpa using hj)
    · intro j r hjk hj
      cases j with
      | zero =>
        simp at hj
        rw [← hj]
        exact hlt
      | succ j => exact hfirst j r (by omega) (by simpa using hj)

theorem GLC_eq_some {P : MathPrims} {κ step : ℚ} {s e : Node3d}
    {ps l : List ReedSheppPath}
    (h : GenerateLocalConfigurations P κ step s e ps = some l) : l = ps := by
  unfold GenerateLocalConfigurations at h
  split at h
  · exact (Option.some.inj h).symm
  · cases h

theorem generateRSP_fst_eq (P : MathPrims) (κ : ℚ) (s e : Node3d) :
    (GenerateRSP P κ s e).1 = !(GenerateRSP P κ s e).2.isEmpty := by
  simp only [GenerateRSP]
  rw [pair_true (runAllFamilies_fst P _ _ _)]
  split
  · simp_all only [List.length_eq_zero]
    split <;> simp_all [List.isEmpty_iff]
  · simp_all [List.isEmpty_iff, List.length_eq_zero]

theorem generateRSP_snd_eq (P : MathPrims) (κ : ℚ) (s e : Node3d) :
    GenerateRSP P κ s e = ((GenerateRSP P κ s e).1, (GenerateRSP P κ s e).2) := rfl

theorem generateRSPs_some_none_iff (P : MathPrims) (κ step : ℚ) (s e : Node3d) :
    GenerateRSPs P κ step s e = some none ↔ (GenerateRSP P κ s e).1 = false := by
  simp only [GenerateRSPs]
  by_cases h : (GenerateRSP P κ s e).1
  · rw [if_pos h]
    constructor
    · intro hc
      split at hc
      · cases hc
      · exact absurd (Option.some.inj hc) (by simp)
    · intro hc
      rw [h] at hc
      cases hc
  · rw [if_neg h]
    simp [Bool.eq_false_iff.mpr h]

theorem generateRSPs_some_some {P : MathPrims} {κ step : ℚ} {s e : Node3d}
    {l : List ReedSheppPath}
    (h : GenerateRSPs P κ step s e = some (some l)) :
    l = (GenerateRSP P κ s e).2 := by
  simp only [GenerateRSPs] at h
  split at h
  · split at h
    · cases h
    · rename_i l2 hGLC
      have h2 : l2 = l := by
        have := Option.some.inj h
        exact Option.some.inj this
      rw [← h2]
      exact GLC_eq_some hGLC
  · exact absurd (Option.some.inj h) (by simp)

/-- **C3**: whenever `ShortestRSP` succeeds, the path it returns is a
generated candidate of minimal `total_length`, and among candidates of equal
minimal total length it is the first one in generation order (strictly
smaller than every earlier candidate's total length). -/
theorem shortestRSP_picks_first_minimum (P : MathPrims) (max_kappa step_size : ℚ)
    (start_node end_node : Node3d) (p : ReedSheppPath)
    (h : ShortestRSP P max_kappa step_size start_node end_node = some (some p)) :
    ∃ i, (GenerateRSP P max_kappa start_node end_node).2.get? i = some p ∧
      (∀ j q, (GenerateRSP P max_kappa start_node end_node).2.get? j = some q →
        p.total_length ≤ q.total_length) ∧
      (∀ j q, j < i → (GenerateRSP P max_kappa start_node end_node).2.get? j = some q →
        p.total_length < q.total_length) := by
  unfold ShortestRSP at h
  cases hG : GenerateRSPs P max_kappa step_size start_node end_node with
  | none => rw [hG] at h; cases h
  | some o =>
    cases o with
    | none => rw [hG] at h; simp at h
    | some l =>
      rw [hG] at h
      simp only at h
      have hl := generateRSPs_some_some hG
      rw [← hl]
      cases l with
      | nil => simp [minScanAux] at h
      | cons hd tl =>
        obtain ⟨k, q, hget, heq, hmin, hfirst⟩ := minScanAux_spec hd tl
        rw [heq] at h
        rw [if_neg (by simp)] at h
        rw [Int.toNat_natCast] at h
        rw [hget] at h
        have hqp : q = p := by
          have := Option.some.inj h
          exact Option.some.inj this
        subst hqp
        exact ⟨k, hget, hmin, hfirst⟩

/-- **C4**: `ShortestRSP` reports the explicit failure outcome (returns
`false`, writing no path and not crashing) exactly when the full search over
all six families and all their symmetry variants produced zero valid
candidates; a candidate collection that is non-empty never yields the
failure outcome, so infeasibility of individual primitives alone never
causes failure. -/
theorem shortestRSP_false_iff_no_candidates (P : MathPrims) (max_kappa step_size : ℚ)
    (start_node end_node : Node3d) :
    ShortestRSP P max_kappa step_size start_node end_node = some none ↔
      (GenerateRSP P max_kappa start_node end_node).2 = [] := by
  constructor
  · intro h
    unfold ShortestRSP at h
    cases hG : GenerateRSPs P max_kappa step_size start_node end_node with
    | none => rw [hG] at h; cases h
    | some o =>
      cases o with
      | none =>
        have hfst := (generateRSPs_some_none_iff P max_kappa step_size
          start_node end_node).mp hG
        have h2 := generateRSP_fst_eq P max_kappa start_node end_node
        rw [hfst] at h2
        have h3 : (GenerateRSP P max_kappa start_node end_node).2.isEmpty := by
          cases hempty : (GenerateRSP P max_kappa start_node end_node).2.isEmpty
          · rw [hempty] at h2; cases h2
          · rfl
        exact List.isEmpty_iff.mp h3
      | some l =>
        rw [hG] at h
        simp only at h
        cases l with
        | nil => simp [minScanAux] at h
        | cons hd tl =>
          obtain ⟨k, q, hget, heq, _, _⟩ := minScanAux_spec hd tl
          rw [heq] at h
          rw [if_neg (by simp)] at h
          rw [Int.toNat_natCast] at h
          rw [hget] at h
          simp at h
  · intro h
    have hfst : (GenerateRSP P max_kappa start_node end_node).1 = false := by
      rw [generateRSP_fst_eq, h]
      rfl
    unfold ShortestRSP
    rw [(generateRSPs_some_none_iff P max_kappa step_size start_node end_node).mpr hfst]

/-- **C6**: one `Interpolation` step with signed arc step `pd` from anchor
(ox, oy, ophi): on `'S'` the new position is the anchor advanced by
`pd / max_kappa` along `(cos ophi, sin ophi)` with heading unchanged; on
`'L'` the chord offset `(sin pd / max_kappa, (1 - cos pd) / max_kappa)`
rotated by `-ophi` is added to the anchor and the heading becomes
`ophi + pd`; on `'R'` the chord's y-component is negated and the heading
becomes `ophi - pd`; and the emitted forward flag is `true` iff `pd > 0`. -/
theorem interpolation_step_formulas (P : MathPrims) (max_kappa : ℚ) (index : ℤ)
    (pd : ℚ) (m : Char) (ox oy ophi : ℚ) (v : Vecs)
    (hnn : 0 ≤ index)
    (hx : index.toNat < v.px.length) (hy : index.toNat < v.py.length)
    (hphi : index.toNat < v.pphi.length) (hg : index.toNat < v.pgear.length) :
    ∃ v2, Interpolation P max_kappa index pd m ox oy ophi v = some v2 ∧
      ((v2.pgear.get? index.toNat = some true) ↔ 0 < pd) ∧
      (m = 'S' →
        v2.px.get? index.toNat = some (ox + pd / max_kappa * P.cos ophi) ∧
        v2.py.get? index.toNat = some (oy + pd / max_kappa * P.sin ophi) ∧
        v2.pphi.get? index.toNat = some ophi) ∧
      (m = 'L' →
        v2.px.get? index.toNat
          = some (ox + (P.cos (-ophi) * (P.sin pd / max_kappa)
              + P.sin (-ophi) * ((1 - P.cos pd) / max_kappa))) ∧
        v2.py.get? index.toNat
          = some (oy + (-P.sin (-ophi) * (P.sin pd / max_kappa)
              + P.cos (-ophi) * ((1 - P.cos pd) / max_kappa))) ∧
        v2.pphi.get? index.toNat = some (ophi + pd)) ∧
      (m = 'R' →
        v2.px.get? index.toNat
          = some (ox + (P.cos (-ophi) * (P.sin pd / max_kappa)
              + P.sin (-ophi) * (-((1 - P.cos pd) / max_kappa)))) ∧
        v2.py.get? index.toNat
          = some (oy + (-P.sin (-ophi) * (P.sin pd / max_kappa)
              + P.cos (-ophi) * (-((1 - P.cos pd) / max_kappa)))) ∧
        v2.pphi.get? index.toNat = some (ophi - pd)) := by
  have hcond : 0 ≤ index ∧ index.toNat < v.px.length ∧ index.toNat < v.py.length ∧
      index.toNat < v.pphi.length ∧ index.toNat < v.pgear.length :=
    ⟨hnn, hx, hy, hphi, hg⟩
  unfold Interpolation
  rw [if_pos hcond]
  refine ⟨_, rfl, ?_, ?_, ?_, ?_⟩
  · by_cases hS : m = 'S'
    · simp [hS, List.get?_set_eq_of_lt, hg, decide_eq_true_iff]
    · by_cases hL : m = 'L'
      · simp [hS, hL, List.get?_set_eq_of_lt, hg, decide_eq_true_iff]
      · by_cases hR : m = 'R'
        · simp [hS, hL, hR, List.get?_set_eq_of_lt, hg, decide_eq_true_iff]
        · simp [hS, hL, hR, List.get?_set_eq_of_lt, hg, decide_eq_true_iff]
  · intro hS
    subst hS
    refine ⟨?_, ?_, ?_⟩ <;>
      simp [List.get?_set_eq_of_lt, hx, hy, hphi]
  · intro hL
    subst hL
    refine ⟨?_, ?_, ?_⟩ <;>
      simp [List.get?_set_eq_of_lt, hx, hy, hphi]
  · intro hR
    subst hR
    have hdiv : (1 - P.cos pd) / (-max_kappa) = -((1 - P.cos pd) / max_kappa) := by
      rw [div_neg]
    refine ⟨?_, ?_, ?_⟩ <;>
      simp [List.get?_set_eq_of_lt, hx, hy, hphi, hdiv]

theorem interpolation_step_formulas_witness :
    (0 : ℤ) ≤ 1 ∧ (1 : ℤ).toNat < 2 ∧
    (∃ v2, Interpolation probePrims 1 1 (1/2) 'S' 0 0 0
        ⟨[0, 0], [0, 0], [0, 0], [true, true]⟩ = some v2 ∧
      ((v2.pgear.get? (1 : ℤ).toNat = some true) ↔ (0 : ℚ) < 1/2) ∧
      ('S' = 'S' →
        v2.px.get? (1 : ℤ).toNat = some (0 + (1/2) / 1 * probePrims.cos 0) ∧
        v2.py.get? (1 : ℤ).toNat = some (0 + (1/2) / 1 * probePrims.sin 0) ∧
        v2.pphi.get? (1 : ℤ).toNat = some 0) ∧
      ('S' = 'L' →
        v2.px.get? (1 : ℤ).toNat
          = some (0 + (probePrims.cos (-0) * (probePrims.sin (1/2) / 1)
              + probePrims.sin (-0) * ((1 - probePrims.cos (1/2)) / 1))) ∧
        v2.py.get? (1 : ℤ).toNat
          = some (0 + (-probePrims.sin (-0) * (probePrims.sin (1/2) / 1)
              + probePrims.cos (-0) * ((1 - probePrims.cos (1/2)) / 1))) ∧
        v2.pphi.get? (1 : ℤ).toNat = some (0 + 1/2)) ∧
      ('S' = 'R' →
        v2.px.get? (1 : ℤ).toNat
          = some (0 + (probePrims.cos (-0) * (probePrims.sin (1/2) / 1)
              + probePrims.sin (-0) * (-((1 - probePrims.cos (1/2)) / 1)))) ∧
        v2.py.get? (1 : ℤ).toNat
          = some (0 + (-probePrims.sin (-0) * (probePrims.sin (1/2) / 1)
              + probePrims.cos (-0) * (-((1 - probePrims.cos (1/2)) / 1)))) ∧
        v2.pphi.get? (1 : ℤ).toNat = some (0 - 1/2))) :=
  ⟨by decide, by decide,
    interpolation_step_formulas probePrims 1 1 (1/2) 'S' 0 0 0
      ⟨[0, 0], [0, 0], [0, 0], [true, true]⟩
      (by decide) (by decide) (by decide) (by decide) (by decide)⟩

/-- **C10**: whenever the four-turn primitives `LRLRn` or `LRLRp` report a
valid result, the returned `t` and `v` parameters are exactly 0; the
`(tau, omega)` pair of `calc_tau_omega` is consulted only in the validity
test and never assigned to the outputs, so only `u` carries a computed
value. -/
theorem lrlrn_lrlrp_t_v_zero (P : MathPrims) (x y phi : ℚ) :
    ((LRLRn P x y phi).flag = true →
      (LRLRn P x y phi).t = 0 ∧ (LRLRn P x y phi).v = 0) ∧
    ((LRLRp P x y phi).flag = true →
      (LRLRp P x y phi).t = 0 ∧ (LRLRp P x y phi).v = 0) := by
  constructor
  · intro h
    simp only [LRLRn] at h ⊢
    split_ifs at h ⊢ <;> simp_all [RSPParam.init]
  · intro h
    simp only [LRLRp] at h ⊢
    split_ifs at h ⊢ <;> simp_all [RSPParam.init]

theorem lrlrn_lrlrp_t_v_zero_witness :
    (LRLRn c10Prims 0 0 0).flag = true ∧
    (LRLRn c10Prims 0 0 0).t = 0 ∧ (LRLRn c10Prims 0 0 0).v = 0 ∧
    (LRLRp c10Prims 2 2 0).flag = true ∧
    (LRLRp c10Prims 2 2 0).t = 0 ∧ (LRLRp c10Prims 2 2 0).v = 0 :=
  ⟨by with_unfolding_all decide,
    ((lrlrn_lrlrp_t_v_zero c10Prims 0 0 0).1 (by with_unfolding_all decide)).1,
    ((lrlrn_lrlrp_t_v_zero c10Prims 0 0 0).1 (by with_unfolding_all decide)).2,
    by with_unfolding_all decide,
    ((lrlrn_lrlrp_t_v_zero c10Prims 2 2 0).2 (by with_unfolding_all decide)).1,
    ((lrlrn_lrlrp_t_v_zero c10Prims 2 2 0).2 (by with_unfolding_all decide)).2⟩

/-- **C9**: every candidate record appended by `SetRSP` stores exactly one
segment — `segs_lengths` and `segs_types` both have size 1, because the
element count `sizeof(lengths)/sizeof(lengths[0])` is computed on the
pointer-decayed array parameter and equals 1 on a platform where
`sizeof(double*) == sizeof(double)` — and its `total_length` is the absolute
value of the first supplied length only, regardless of how many segments the
caller supplied. -/
theorem setRSP_stores_single_segment (lengths : List ℚ) (types : List Char)
    (paths : List ReedSheppPath) (hl : lengths ≠ []) (ht : types ≠ []) :
    SetRSP lengths types paths = (true, paths ++ [setRSPRecord lengths types]) ∧
    (setRSPRecord lengths types).segs_lengths.length = 1 ∧
    (setRSPRecord lengths types).segs_types.length = 1 ∧
    (setRSPRecord lengths types).total_length = |lengths.headI| := by
  refine ⟨setRSP_eq lengths types paths, ?_, ?_, ?_⟩
  · cases lengths with
    | nil => exact absurd rfl hl
    | cons a l => simp [setRSPRecord]
  · cases types with
    | nil => exact absurd rfl ht
    | cons c l => simp [setRSPRecord]
  · cases lengths with
    | nil => exact absurd rfl hl
    | cons a l => simp [setRSPRecord]

theorem setRSP_stores_single_segment_witness :
    ([(3 : ℚ), -4, 5] ≠ []) ∧ (['L', 'S', 'R'] ≠ []) ∧
    (SetRSP [3, -4, 5] ['L', 'S', 'R'] []
        = (true, [] ++ [setRSPRecord [3, -4, 5] ['L', 'S', 'R']]) ∧
      (setRSPRecord [(3 : ℚ), -4, 5] ['L', 'S', 'R']).segs_lengths.length = 1 ∧
      (setRSPRecord [(3 : ℚ), -4, 5] ['L', 'S', 'R']).segs_types.length = 1 ∧
      (setRSPRecord [(3 : ℚ), -4, 5] ['L', 'S', 'R']).total_length
        = |([(3 : ℚ), -4, 5]).headI|) :=
  ⟨by decide, by decide,
    setRSP_stores_single_segment [3, -4, 5] ['L', 'S', 'R'] []
      (by decide) (by decide)⟩

/-- **C1**: evaluation of `SetRSP` at a concrete three-segment call (the
shape every family orchestrator uses): the appended record keeps only the
first length and first type letter and reports `total_length = 1` instead of
`|1| + |2| + |3| = 6`, refuting the claim that all `n` lengths and types are
stored with their absolute values summed. -/
theorem setRSP_drops_tail_segments :
    SetRSP [1, 2, 3] ['S', 'L', 'S'] [] =
      (true, [⟨[1], ['S'], 1, [], [], [], []⟩]) := by
  with_unfolding_all decide

/-- **C5**: the three-turn family orchestrator invokes `LRL` under all eight
symmetry combinations — the four transforms (x, y, phi), (-x, y, -phi),
(x, -y, -phi), (-x, -y, phi) of the normalized pose and the same four
transforms of the time-reversed pose (xb, yb, phi) with
xb = x cos phi + y sin phi and yb = x sin phi - y cos phi — and each
time-reversed variant that validates appends its (t, u, v) lengths in
reverse order. -/
theorem ccc_eight_symmetry_variants (P : MathPrims) (x y phi : ℚ)
    (ps : List ReedSheppPath) :
    CCC P x y phi (true, ps) = (true, ps
      ++ vblock (LRL P x y phi)
          [(LRL P x y phi).t, (LRL P x y phi).u, (LRL P x y phi).v]
          ['L', 'R', 'L']
      ++ vblock (LRL P (-x) y (-phi))
          [-(LRL P (-x) y (-phi)).t, -(LRL P (-x) y (-phi)).u,
            -(LRL P (-x) y (-phi)).v]
          ['L', 'R', 'L']
      ++ vblock (LRL P x (-y) (-phi))
          [(LRL P x (-y) (-phi)).t, (LRL P x (-y) (-phi)).u,
            (LRL P x (-y) (-phi)).v]
          ['R', 'L', 'R']
      ++ vblock (LRL P (-x) (-y) phi)
          [-(LRL P (-x) (-y) phi).t, -(LRL P (-x) (-y) phi).u,
            -(LRL P (-x) (-y) phi).v]
          ['R', 'L', 'R']
      ++ vblock (LRL P (x * P.cos phi + y * P.sin phi) (x * P.sin phi - y * P.cos phi) phi)
          (List.reverse
            [(LRL P (x * P.cos phi + y * P.sin phi) (x * P.sin phi - y * P.cos phi) phi).t,
             (LRL P (x * P.cos phi + y * P.sin phi) (x * P.sin phi - y * P.cos phi) phi).u,
             (LRL P (x * P.cos phi + y * P.sin phi) (x * P.sin phi - y * P.cos phi) phi).v])
          ['L', 'R', 'L']
      ++ vblock (LRL P (-(x * P.cos phi + y * P.sin phi)) (x * P.sin phi - y * P.cos phi) (-phi))
          (List.reverse
            [-(LRL P (-(x * P.cos phi + y * P.sin phi)) (x * P.sin phi - y * P.cos phi) (-phi)).t,
             -(LRL P (-(x * P.cos phi + y * P.sin phi)) (x * P.sin phi - y * P.cos phi) (-phi)).u,
             -(LRL P (-(x * P.cos phi + y * P.sin phi)) (x * P.sin phi - y * P.cos phi) (-phi)).v])
          ['L', 'R', 'L']
      ++ vblock (LRL P (x * P.cos phi + y * P.sin phi) (-(x * P.sin phi - y * P.cos phi)) (-phi))
          (List.reverse
            [(LRL P (x * P.cos phi + y * P.sin phi) (-(x * P.sin phi - y * P.cos phi)) (-phi)).t,
             (LRL P (x * P.cos phi + y * P.sin phi) (-(x * P.sin phi - y * P.cos phi)) (-phi)).u,
             (LRL P (x * P.cos phi + y * P.sin phi) (-(x * P.sin phi - y * P.cos phi)) (-phi)).v])
          ['R', 'L', 'R']
      ++ vblock (LRL P (-(x * P.cos phi + y * P.sin phi)) (-(x * P.sin phi - y * P.cos phi)) phi)
          (List.reverse
            [-(LRL P (-(x * P.cos phi + y * P.sin phi)) (-(x * P.sin phi - y * P.cos phi)) phi).t,
             -(LRL P (-(x * P.cos phi + y * P.sin phi)) (-(x * P.sin phi - y * P.cos phi)) phi).u,
             -(LRL P (-(x * P.cos phi + y * P.sin phi)) (-(x * P.sin phi - y * P.cos phi)) phi).v])
          ['R', 'L', 'R']) := by
  simp [CCC, appendVariant_true]

set_option maxRecDepth 100000 in
/-- **C2** (failing-case evaluation): on a start/goal pair where the search
succeeds, `ShortestRSP` hands back the selected candidate with EMPTY sample
sequences x, y, phi, gear and with `segs_lengths`/`total_length` still in
unit-curvature space (19/6 instead of (19/6) / max_kappa with
max_kappa = 2): `GenerateLocalConfigurations` iterates the collection by
value, so all discretization and rescaling is applied to discarded copies. -/
theorem shortestRSP_returns_undiscretized_path :
    ShortestRSP probePrims 2 1 ⟨0, 0, 0⟩ ⟨0, 1/4, 1⟩ =
      some (some ⟨[-19/6], ['S'], 19/6, [], [], [], []⟩) := by
  with_unfolding_all decide

set_option maxRecDepth 100000 in
/-- **C7** (failing-case evaluation): for the zero-length selected path
(`segs_lengths = [0]`, the candidate shape produced when start = goal) every
local x-sample is exactly 0, so the trailing-zero trim pops all samples —
including the start sample — and then reads `back()` of the emptied buffer:
fewer than 2 samples survive and the access is out of bounds (`none`). -/
theorem discretizer_trim_out_of_bounds :
    discretizePath probePrims 1 1 ⟨0, 0, 0⟩ ⟨[0], ['L'], 0, [], [], [], []⟩ = none := by
  with_unfolding_all decide

set_option maxRecDepth 100000 in
theorem shortestRSP_picks_first_minimum_witness :
    ∃ i, (GenerateRSP probePrims 2 ⟨0, 0, 0⟩ ⟨0, 1/4, 1⟩).2.get? i
        = some ⟨[-19/6], ['S'], 19/6, [], [], [], []⟩ ∧
      (∀ j q, (GenerateRSP probePrims 2 ⟨0, 0, 0⟩ ⟨0, 1/4, 1⟩).2.get? j = some q →
        (⟨[-19/6], ['S'], 19/6, [], [], [], []⟩ : ReedSheppPath).total_length
          ≤ q.total_length) ∧
      (∀ j q, j < i →
        (GenerateRSP probePrims 2 ⟨0, 0, 0⟩ ⟨0, 1/4, 1⟩).2.get? j = some q →
        (⟨[-19/6], ['S'], 19/6, [], [], [], []⟩ : ReedSheppPath).total_length
          < q.total_length) :=
  shortestRSP_picks_first_minimum probePrims 2 1 ⟨0, 0, 0⟩ ⟨0, 1/4, 1⟩ _
    (by with_unfolding_all decide)

/-- **C8**: mirroring the normalized relative pose in y and heading —
(x, y, phi) versus (x, -y, -phi), which is what mirroring the goal offset
does to the pose `GenerateRSP` feeds to the six families — produces the same
multiset of candidate total lengths: for each candidate of the one pose
there is a candidate of the mirrored pose with equal total length, and
conversely, so the minimal total length is identical. -/
theorem mirrored_pose_same_total_lengths (P : MathPrims)
    (hcos : ∀ a, P.cos (-a) = P.cos a) (hsin : ∀ a, P.sin (-a) = -P.sin a)
    (x y phi : ℚ) :
    (((runAllFamilies P x (-y) (-phi)).2).map ReedSheppPath.total_length).Perm
      (((runAllFamilies P x y phi).2).map ReedSheppPath.total_length) ∧
    (∀ c ∈ (runAllFamilies P x y phi).2,
      ∃ c2 ∈ (runAllFamilies P x (-y) (-phi)).2,
        c2.total_length = c.total_length) ∧
    (∀ c ∈ (runAllFamilies P x (-y) (-phi)).2,
      ∃ c2 ∈ (runAllFamilies P x y phi).2,
        c2.total_length = c.total_length) := by
  have hperm := runAllFamilies_mirror P hcos hsin x y phi
  refine ⟨hperm, ?_, ?_⟩
  · intro c hc
    have hmem : c.total_length ∈
        ((runAllFamilies P x (-y) (-phi)).2).map ReedSheppPath.total_length :=
      hperm.mem_iff.mpr (List.mem_map_of_mem _ hc)
    obtain ⟨c2, hc2, he⟩ := List.mem_map.mp hmem
    exact ⟨c2, hc2, he⟩
  · intro c hc
    have hmem : c.total_length ∈
        ((runAllFamilies P x y phi).2).map ReedSheppPath.total_length :=
      hperm.mem_iff.mp (List.mem_map_of_mem _ hc)
    obtain ⟨c2, hc2, he⟩ := List.mem_map.mp hmem
    exact ⟨c2, hc2, he⟩

theorem mirrored_pose_same_total_lengths_witness :
    (∀ a, probePrims.cos (-a) = probePrims.cos a) ∧
    (∀ a, probePrims.sin (-a) = -probePrims.sin a) ∧
    ((((runAllFamilies probePrims 5 (-7) (-11)).2).map ReedSheppPath.total_length).Perm
        (((runAllFamilies probePrims 5 7 11).2).map ReedSheppPath.total_length) ∧
      (∀ c ∈ (runAllFamilies probePrims 5 7 11).2,
        ∃ c2 ∈ (runAllFamilies probePrims 5 (-7) (-11)).2,
          c2.total_length = c.total_length) ∧
      (∀ c ∈ (runAllFamilies probePrims 5 (-7) (-11)).2,
        ∃ c2 ∈ (runAllFamilies probePrims 5 7 11).2,
          c2.total_length = c.total_length)) :=
  ⟨fun _ => rfl, fun _ => by simp [probePrims],
    mirrored_pose_same_total_lengths probePrims (fun _ => rfl)
      (fun _ => by simp [probePrims]) 5 7 11⟩
